import Mathlib

/-!
Verification development for the sandbox code-execution service
(`src/sandbox/main.py`): a shallow embedding of the session namespace,
the execution controller (`execute_code`), the artifact extractor
(`capture_matplotlib_figures`), the scratch-file registry
(`get_scratch_files`), the status endpoints and the preamble helper
`save_plot`, together with theorems settling the specification claims.
-/

/-- Values stored in the Python session namespace.  Only the shapes the
claims need are distinguished: integers, strings, and opaque imported
modules / defined functions (represented by their name). -/
inductive PyVal where
  | int (n : Int)
  | str (s : String)
  | module (name : String)
  | func (name : String)
  deriving DecidableEq, Repr

/-- A matplotlib figure in the library's global open-figure registry.
`num` is the figure number (`plt.get_fignums()`), `hasAxes` models the
truthiness of `fig.axes` (the figure has at least one populated subplot),
and `saveFails` models whether `fig.savefig` raises for this figure
(e.g. an I/O error), which drives the extractor's `except` path. -/
structure Figure where
  num : Nat
  hasAxes : Bool
  saveFails : Bool
  deriving DecidableEq, Repr

/-- A directory entry of the scratch directory `/scratch`.  `isFile`
models `file_path.is_file()` (directories and other non-regular entries
are `false`); `statFails` models whether `file_path.stat()` raises for
this entry, which drives the listing's `except` path. -/
structure FileEntry where
  name : String
  size : Nat
  isFile : Bool
  statFails : Bool
  deriving DecidableEq, Repr

/-- The Python dict `session_globals` (`main.py` line 42): an ordered
association list from identifier to value, mirroring dict insertion
order. -/
def PyDict := List (String × PyVal)

/-- The process-wide mutable state the service touches: the session
namespace, matplotlib's global open-figure registry, the contents of the
scratch directory, and the wall clock (`time.time()`, in whole seconds
as the source uses `int(time.time())` for filenames). -/
structure ExecState where
  ns : List (String × PyVal)
  figures : List Figure
  fs : List FileEntry
  clock : Nat
  deriving DecidableEq, Repr

/-- Outcome of running one submitted code string via
`exec(request.code, session_globals)` under the output-capture harness:
either it returns normally having written `out` to stdout and `err` to
stderr, or it raises an unhandled exception with message `msg` and
formatted traceback `tb` after writing `out` / `err` up to the failure
point.  Either way it may have mutated the namespace, the figure
registry, the filesystem and advanced the clock (the final state). -/
inductive RunOutcome where
  | ok (out err : String) (st : ExecState)
  | raised (msg tb out err : String) (st : ExecState)
  deriving Repr

/-- The semantics of one submitted code string: an arbitrary state
transformer, since the service runs arbitrary Python. -/
def Code := ExecState → RunOutcome

/-- Python dict lookup `d[k]` / name resolution against the globals. -/
def nsLookup : List (String × PyVal) → String → Option PyVal
  | [], _ => none
  | (k, v) :: rest, n => if n = k then some v else nsLookup rest n

/-- Python dict assignment `d[k] = v`: updates the existing key in
place (keeping its position, as dicts do) or appends a new key at the
end. -/
def nsSet : List (String × PyVal) → String → PyVal → List (String × PyVal)
  | [], k, v => [(k, v)]
  | (k1, v1) :: rest, k, v =>
      if k1 = k then (k, v) :: rest else (k1, v1) :: nsSet rest k v

/-- Line 187: `session_globals[__scratch_dir__] = str(scratch_dir)` -
the one fixed binding injected before every execution. -/
def injectScratch (st : ExecState) : ExecState :=
  { st with ns := nsSet st.ns "__scratch_dir__" (PyVal.str "/scratch") }

/-- ASCII lowercasing of one character, as Python `str.lower` acts on
the ASCII filenames this service produces. -/
def lowerChar (c : Char) : Char :=
  if 65 ≤ c.toNat ∧ c.toNat ≤ 90 then Char.ofNat (c.toNat + 32) else c

/-- Python `s.lower()` on a filename suffix. -/
def pyLower (s : String) : String := String.mk (s.data.map lowerChar)

/-- Index of the last occurrence of a dot in a character list, if any
(CPython's `name.rfind(".")` when it is not `-1`). -/
def rfindDot : List Char → Option Nat
  | [] => none
  | c :: rest =>
      match rfindDot rest with
      | some i => some (i + 1)
      | none => if c = '.' then some 0 else none

/-- CPython `PurePath.suffix`: with `i = name.rfind(".")`, the substring
`name[i:]` when `0 < i < len(name) - 1`, otherwise the empty string. -/
def pySuffix (name : String) : String :=
  match rfindDot name.data with
  | none => ""
  | some i =>
      if 0 < i ∧ i + 1 < name.data.length then String.mk (name.data.drop i)
      else ""

/-- Line 95: `file_path.suffix.lower() or 'unknown'` - the `type` field
of a `FileInfo` (Python `or` falls back exactly when the lowered suffix
is the empty, falsy, string). -/
def pyType (name : String) : String :=
  let s := pyLower (pySuffix name)
  if s = "" then "unknown" else s

/-- The `FileInfo` pydantic model (lines 22-26). -/
structure FileInfo where
  name : String
  type : String
  size : Nat
  path : String
  deriving DecidableEq, Repr

/-- Lines 93-98: the `FileInfo` built for one directory entry; the
scratch directory is `/scratch`, so `str(file_path)` is
`"/scratch/" ++ name`. -/
def mkFileInfo (e : FileEntry) : FileInfo :=
  { name := e.name
    type := pyType e.name
    size := e.size
    path := "/scratch/" ++ e.name }

/-- The loop body of `get_scratch_files` (lines 88-100): iterate the
directory entries; regular files get a `FileInfo` appended to the
accumulator; a `stat` failure raises, aborting the loop - the entries
appended so far are kept (the `except` block does not reset `files`).
Returns the list the function returns and whether an exception was
caught (and logged). -/
def listGo : List FileEntry → List FileInfo × Bool
  | [] => ([], false)
  | e :: rest =>
      if e.isFile then
        if e.statFails then ([], true)
        else
          let r := listGo rest
          (mkFileInfo e :: r.1, r.2)
      else listGo rest

/-- Lines 86-102: `get_scratch_files` - the list actually returned. -/
def get_scratch_files (fs : List FileEntry) : List FileInfo :=
  (listGo fs).1

/-- Whether `get_scratch_files` hit (and swallowed, logging it) an
exception while listing. -/
def listErr (fs : List FileEntry) : Bool :=
  (listGo fs).2

/-- Byte size of a serialized figure image; the exact count is
runtime-dependent, modelled as a fixed positive constant. -/
def figPngSize : Nat := 1

/-- Writing a file into the scratch directory: overwrite an entry of
the same name, else append a fresh regular-file entry. -/
def writeScratch (fs : List FileEntry) (nm : String) (sz : Nat) : List FileEntry :=
  if fs.any (fun e => e.name = nm) then
    fs.map (fun e => if e.name = nm then { e with size := sz, isFile := true } else e)
  else fs ++ [{ name := nm, size := sz, isFile := true, statFails := false }]

/-- Line 58: `f"plot_{i}_{int(time.time())}.png"`. -/
def figFilename (i t : Nat) : String :=
  "plot_" ++ toString i ++ "_" ++ toString t ++ ".png"

/-- The loop of `capture_matplotlib_figures` (lines 55-61): for each
open figure with populated axes, save it to the scratch directory; a
`savefig` failure raises, aborting the loop - files already written
stay written, the accumulated `figures` list is discarded by the
`except` block.  Returns (paths accumulated, filesystem after the
writes performed, whether an exception was raised). -/
def captureGo : List Figure → List FileEntry → Nat → List String × List FileEntry × Bool
  | [], fs, _ => ([], fs, false)
  | f :: rest, fs, t =>
      if f.hasAxes then
        if f.saveFails then ([], fs, true)
        else
          let fs1 := writeScratch fs (figFilename f.num t) figPngSize
          let r := captureGo rest fs1 t
          (("/scratch/" ++ figFilename f.num t) :: r.1, r.2)
      else captureGo rest fs t

/-- Lines 49-68: `capture_matplotlib_figures`.  On the normal path the
saved paths are returned and `plt.close('all')` empties the figure
registry; on the exception path the error is swallowed (logged via
`print`) and `[]` returned - but `plt.close('all')` is never reached,
so the registry keeps all its figures. -/
def capture_matplotlib_figures (st : ExecState) : List String × ExecState :=
  let r := captureGo st.figures st.fs st.clock
  if r.2.2 then ([], { st with fs := r.2.1 })
  else (r.1, { st with fs := r.2.1, figures := [] })

/-- Whether `capture_matplotlib_figures` hits its `except` path on this
state. -/
def captureErr (st : ExecState) : Bool :=
  (captureGo st.figures st.fs st.clock).2.2

/-- The `CodeExecutionRequest` pydantic model (lines 17-19); `code` is
the submitted string, embedded by its semantics.  The `timeout` field
defaults to 30 and is never read by the handler. -/
structure CodeExecutionRequest where
  code : Code
  timeout : Option Int := some 30

/-- The `ExecutionResult` pydantic model (lines 29-35); time measured
on the integer clock. -/
structure ExecutionResult where
  stdout : String
  stderr : String
  success : Bool
  execution_time : Nat
  files : List FileInfo
  error : Option String
  deriving DecidableEq, Repr

/-- Lines 173-218: the `POST /execute` handler.  Record the start time,
inject `__scratch_dir__`, run the code under the output-capture
harness; on success run the artifact extractor and set `success=true`;
on an unhandled exception set `error` to the exception message and
append the formatted traceback to the captured stderr; either way
compute the elapsed time, list the scratch files and assemble the
result.  Returns the response together with the resulting process
state. -/
def execute_code (req : CodeExecutionRequest) (st : ExecState) :
    ExecutionResult × ExecState :=
  match req.code (injectScratch st) with
  | RunOutcome.ok out err st2 =>
      let st3 := (capture_matplotlib_figures st2).2
      ({ stdout := out
         stderr := err
         success := true
         execution_time := st3.clock - st.clock
         files := get_scratch_files st3.fs
         error := none }, st3)
  | RunOutcome.raised msg tb out err st2 =>
      ({ stdout := out
         stderr := err ++ tb
         success := false
         execution_time := st2.clock - st.clock
         files := get_scratch_files st2.fs
         error := some msg }, st2)

/-- Names bound into the session namespace by `from sklearn import *`
(line 118).  Modelled from the external library's declared export list;
the decisive fact for the claims is that none of these names is
`time`. -/
def sklearnStarNames : List String :=
  ["calibration", "cluster", "compose", "covariance", "cross_decomposition",
   "datasets", "decomposition", "discriminant_analysis", "dummy", "ensemble",
   "exceptions", "experimental", "externals", "feature_extraction",
   "feature_selection", "gaussian_process", "impute", "inspection",
   "isotonic", "kernel_approximation", "kernel_ridge", "linear_model",
   "manifold", "metrics", "mixture", "model_selection", "multiclass",
   "multioutput", "naive_bayes", "neighbors", "neural_network", "pipeline",
   "preprocessing", "random_projection", "semi_supervised", "svm", "tree",
   "clone", "get_config", "set_config", "config_context", "show_versions"]

/-- The bindings produced by executing the startup preamble (lines
111-135) into an empty dict: `exec` first inserts `__builtins__`, then
the aliased imports bind in order, the star import binds the library's
exports, and the helper `save_plot` is defined last.  Note the preamble
never imports `time`. -/
def preambleBindings : List (String × PyVal) :=
  ("__builtins__", PyVal.module "builtins") ::
  ("pd", PyVal.module "pandas") ::
  ("np", PyVal.module "numpy") ::
  ("plt", PyVal.module "matplotlib.pyplot") ::
  ("sns", PyVal.module "seaborn") ::
  ("px", PyVal.module "plotly.express") ::
  ("go", PyVal.module "plotly.graph_objects") ::
  (sklearnStarNames.map (fun n => (n, PyVal.module n))) ++
  [("scipy", PyVal.module "scipy"),
   ("os", PyVal.module "os"),
   ("save_plot", PyVal.func "save_plot")]

/-- The names of the preamble bindings, in dict order. -/
def preambleNames : List String := preambleBindings.map Prod.fst

/-- Lines 221-230: the `DELETE /session` handler - `session_globals`
is cleared and `startup_event` re-executes the preamble into the now
empty dict, leaving exactly the preamble bindings.  Figures, files and
clock are untouched. -/
def reset_session (st : ExecState) : ExecState :=
  { st with ns := preambleBindings }

/-- Response shape of `GET /status` (lines 144-152). -/
structure StatusResponse where
  session_variables : List String
  scratch_files : Nat
  files : List FileInfo
  deriving DecidableEq, Repr

/-- Lines 144-152: the `GET /status` handler - one fresh listing call,
whose length and contents fill `scratch_files` and `files`. -/
def get_status (st : ExecState) : StatusResponse :=
  let files := get_scratch_files st.fs
  { session_variables := st.ns.map Prod.fst
    scratch_files := files.length
    files := files }

/-- Response shape of `GET /files` (lines 155-158). -/
structure FilesResponse where
  files : List FileInfo
  deriving DecidableEq, Repr

/-- Lines 155-158: the `GET /files` handler. -/
def list_files (st : ExecState) : FilesResponse :=
  { files := get_scratch_files st.fs }

/-- The preamble helper `save_plot` (lines 127-134), run with the given
globals, arguments, clock and scratch contents.  With no filename it
first evaluates `f"plot_{int(time.time())}.{format}"`, which resolves
the name `time` in its globals - the session namespace - raising a
`NameError` when it is unbound; otherwise the figure is written to
`/scratch/<filename>` and that path returned. -/
def save_plot (globals : List (String × PyVal)) (filename : Option String)
    (fmt : String) (clock : Nat) (fs : List FileEntry) :
    Except String (String × List FileEntry) :=
  match filename with
  | some fn => Except.ok ("/scratch/" ++ fn, writeScratch fs fn figPngSize)
  | none =>
      match nsLookup globals "time" with
      | none => Except.error "NameError: name time is not defined"
      | some _ =>
          let fn := "plot_" ++ toString clock ++ "." ++ fmt
          Except.ok ("/scratch/" ++ fn, writeScratch fs fn figPngSize)

/-- An empty fresh process state used by concrete witnesses. -/
def st0 : ExecState :=
  { ns := [], figures := [], fs := [], clock := 0 }

/-- Semantics of a snippet `n = <v>`: bind one name and return. -/
def assignVar (n : String) (v : PyVal) : Code := fun st =>
  RunOutcome.ok "" "" { st with ns := nsSet st.ns n v }

/-- Semantics of a snippet `assert n == <v>`: succeed iff the name is
bound to the value, else raise. -/
def assertVar (n : String) (v : PyVal) : Code := fun st =>
  if nsLookup st.ns n = some v then RunOutcome.ok "" "" st
  else RunOutcome.raised "AssertionError" "Traceback (most recent call last): AssertionError" "" "" st

/-- A request binding `x = 1`. -/
def reqAssignX : CodeExecutionRequest :=
  { code := assignVar "x" (PyVal.int 1) }

/-- A snippet that writes output to both streams and then raises. -/
def raiseCode : Code := fun st =>
  RunOutcome.raised "boom" "Traceback: boom" "before-out" "before-err" st

/-- A request whose code raises after writing to both streams. -/
def reqRaise : CodeExecutionRequest := { code := raiseCode }

/-- A snippet that creates one figure and then raises. -/
def figRaiseCode : Code := fun st =>
  RunOutcome.raised "boom" "Traceback: boom" "" ""
    { st with figures := st.figures ++ [{ num := 1, hasAxes := true, saveFails := false }] }

/-- A request whose code creates a figure then raises. -/
def reqFigRaise : CodeExecutionRequest := { code := figRaiseCode }

/-- A request whose code does nothing and succeeds. -/
def reqNop : CodeExecutionRequest := { code := fun st => RunOutcome.ok "" "" st }

/-- A state whose only open figure fails to save, driving the artifact
extractor onto its exception path. -/
def stFig : ExecState :=
  { ns := [], figures := [{ num := 1, hasAxes := true, saveFails := true }],
    fs := [], clock := 0 }

/-- A scratch directory whose second regular file fails `stat()`,
driving the listing onto its exception path after one entry was already
accumulated. -/
def fsC8 : List FileEntry :=
  [{ name := "a.png", size := 10, isFile := true, statFails := false },
   { name := "bad.txt", size := 5, isFile := true, statFails := true }]

/-- Helper: dict assignment semantics for lookup - setting key `k`
makes it map to `v` and leaves every other key unchanged. -/
theorem nsLookup_nsSet (ns : List (String × PyVal)) (k n : String) (v : PyVal) :
    nsLookup (nsSet ns k v) n = if n = k then some v else nsLookup ns n := by
  induction ns with
  | nil => simp [nsSet, nsLookup]
  | cons kv rest ih =>
      obtain ⟨k1, v1⟩ := kv
      by_cases hk : k1 = k
      · subst hk
        by_cases hn : n = k1 <;> simp [nsSet, nsLookup, hn]
      · by_cases hn : n = k1
        · subst hn
          simp [nsSet, nsLookup, hk, Ne.symm hk]
        · simp [nsSet, nsLookup, hk, hn, ih]

/-- C5: the timeout field of an execution request is accepted but never
enforced - with the same code semantics and identical starting state,
any two timeout values produce the same execution result and the same
resulting process state, so a long-running submission is never
interrupted on account of its timeout. -/
theorem timeout_not_enforced (c : Code) (t1 t2 : Option Int) (st : ExecState) :
    execute_code { code := c, timeout := t1 } st =
      execute_code { code := c, timeout := t2 } st := rfl

/-- C10: in every status response, `scratch_files` equals the length of
the `files` field, both being derived from the single listing call the
handler makes. -/
theorem status_scratch_files_count (st : ExecState) :
    (get_status st).scratch_files = (get_status st).files.length ∧
    (get_status st).files = get_scratch_files st.fs :=
  ⟨rfl, rfl⟩

/-- C7: after a session reset the namespace holds exactly the preamble
bindings - every name from prior executions is gone - and the status
endpoint's `session_variables` then lists exactly the preamble
names. -/
theorem reset_restores_exact_preamble (st : ExecState) :
    (reset_session st).ns = preambleBindings ∧
    (get_status (reset_session st)).session_variables = preambleNames :=
  ⟨rfl, rfl⟩

/-- C1: an execution result has `success = false` iff the submitted
code raised an unhandled exception; on the normal path `success = true`
with `error = none` and the captured streams reported verbatim; on the
exception path `error` is the exception message, `stdout` is exactly
the text written before the raise, and `stderr` is the text written
before the raise followed by the full formatted traceback. -/
theorem execute_success_iff_no_exception (req : CodeExecutionRequest) (st : ExecState) :
    ((execute_code req st).1.success = false ↔
      ∃ msg tb out err st2,
        req.code (injectScratch st) = RunOutcome.raised msg tb out err st2) ∧
    (∀ out err st2, req.code (injectScratch st) = RunOutcome.ok out err st2 →
      (execute_code req st).1.success = true ∧
      (execute_code req st).1.error = none ∧
      (execute_code req st).1.stdout = out ∧
      (execute_code req st).1.stderr = err) ∧
    (∀ msg tb out err st2,
      req.code (injectScratch st) = RunOutcome.raised msg tb out err st2 →
      (execute_code req st).1.success = false ∧
      (execute_code req st).1.error = some msg ∧
      (execute_code req st).1.stdout = out ∧
      (execute_code req st).1.stderr = err ++ tb) := by
  rcases h : req.code (injectScratch st) with ⟨out, err, st2⟩ | ⟨msg, tb, out, err, st2⟩
  · refine ⟨?_, ?_, ?_⟩
    · simp [execute_code, h]
    · intro o e s2 ho
      cases ho
      simp [execute_code, h]
    · intro m t o e s2 hr
      cases hr
  · refine ⟨?_, ?_, ?_⟩
    · simp [execute_code, h]
    · intro o e s2 ho
      cases ho
    · intro m t o e s2 hr
      cases hr
      simp [execute_code, h]

/-- Witness for C1: a concrete snippet that writes to both streams and
raises yields exactly the pre-raise stdout, the pre-raise stderr with
the traceback appended, a `false` success flag and the exception
message as `error`. -/
theorem execute_success_iff_no_exception_witness :
    (execute_code reqRaise st0).1.success = false ∧
    (execute_code reqRaise st0).1.error = some "boom" ∧
    (execute_code reqRaise st0).1.stdout = "before-out" ∧
    (execute_code reqRaise st0).1.stderr = "before-err" ++ "Traceback: boom" :=
  (execute_success_iff_no_exception reqRaise st0).2.2 "boom" "Traceback: boom"
    "before-out" "before-err" (injectScratch st0) rfl

/-- C3: when the submitted code raises, the artifact extractor is not
run - the resulting process state is exactly the state the failing code
left behind, so the open-figure registry is untouched by the controller
and every figure created before the failure remains open. -/
theorem failing_execution_preserves_figures (req : CodeExecutionRequest)
    (st : ExecState) (msg tb out err : String) (st2 : ExecState)
    (h : req.code (injectScratch st) = RunOutcome.raised msg tb out err st2) :
    (execute_code req st).2.figures = st2.figures ∧
    (execute_code req st).2 = st2 := by
  simp [execute_code, h]

/-- Witness for C3: a snippet that opens one figure and then raises
leaves exactly that figure open afterwards. -/
theorem failing_execution_preserves_figures_witness :
    (execute_code reqFigRaise st0).2.figures =
      [{ num := 1, hasAxes := true, saveFails := false }] :=
  (failing_execution_preserves_figures reqFigRaise st0 "boom" "Traceback: boom" "" ""
    { injectScratch st0 with
        figures := [{ num := 1, hasAxes := true, saveFails := false }] } rfl).1

/-- C2: all executions share the single session namespace - any binding
present after execution A (other than the reserved `__scratch_dir__`
slot, which is re-injected) is visible verbatim to the code of the next
execution B, and in particular a following request whose code asserts
that binding succeeds. -/
theorem session_namespace_persistence (a : CodeExecutionRequest) (st : ExecState)
    (n : String) (v : PyVal)
    (hn : n ≠ "__scratch_dir__")
    (hv : nsLookup (execute_code a st).2.ns n = some v) :
    nsLookup (injectScratch (execute_code a st).2).ns n = some v ∧
    (execute_code { code := assertVar n v } (execute_code a st).2).1.success = true := by
  have h1 : nsLookup (injectScratch (execute_code a st).2).ns n = some v := by
    simpa [injectScratch, nsLookup_nsSet, hn] using hv
  refine ⟨h1, ?_⟩
  generalize hG : (execute_code a st).2 = s at h1 ⊢
  simp [execute_code, assertVar, h1]

/-- Witness for C2: running `x = 1` and then `assert x == 1` from a
fresh state reports success on the second request. -/
theorem session_namespace_persistence_witness :
    nsLookup (injectScratch (execute_code reqAssignX st0).2).ns "x" =
      some (PyVal.int 1) ∧
    (execute_code { code := assertVar "x" (PyVal.int 1) }
      (execute_code reqAssignX st0).2).1.success = true :=
  session_namespace_persistence reqAssignX st0 "x" (PyVal.int 1)
    (by decide) (by decide)

/-- C4 counterexample: a state whose only open figure fails to save
drives the extractor onto its `except` path, where `plt.close('all')`
is never reached - after the run the figure registry is NOT empty,
refuting the claim that every run leaves it empty. -/
theorem capture_error_leaves_figures_open :
    captureErr stFig = true ∧
    ¬ ((capture_matplotlib_figures stFig).2.figures = []) := by
  decide

/-- C4 amended: a run of the artifact extractor that hits no internal
error leaves the figure registry empty regardless of which figures were
saved; a run that hits an error swallows it, returns no paths, and
leaves the registry exactly as it was (the clearing step is skipped);
in either case extraction never fails the enclosing execution - a
request whose code returns normally always reports success with no
error. -/
theorem capture_clears_figures_unless_error (st : ExecState) :
    (captureErr st = false → (capture_matplotlib_figures st).2.figures = []) ∧
    (captureErr st = true → (capture_matplotlib_figures st).1 = [] ∧
        (capture_matplotlib_figures st).2.figures = st.figures) ∧
    (∀ req stE out err st2, req.code (injectScratch stE) = RunOutcome.ok out err st2 →
        (execute_code req stE).1.success = true ∧
        (execute_code req stE).1.error = none) := by
  refine ⟨?_, ?_, ?_⟩
  · intro h
    simp only [captureErr] at h
    simp [capture_matplotlib_figures, h]
  · intro h
    simp only [captureErr] at h
    simp [capture_matplotlib_figures, h]
  · intro req stE out err st2 h
    simp [execute_code, h]

/-- Witness for C4 amended: a fresh state clears to an empty registry;
the failing-save state keeps its figure and returns no paths; a no-op
request reports success. -/
theorem capture_clears_figures_unless_error_witness :
    (capture_matplotlib_figures st0).2.figures = [] ∧
    ((capture_matplotlib_figures stFig).1 = [] ∧
      (capture_matplotlib_figures stFig).2.figures = stFig.figures) ∧
    (execute_code reqNop st0).1.success = true :=
  ⟨(capture_clears_figures_unless_error st0).1 rfl,
   (capture_clears_figures_unless_error stFig).2.1 rfl,
   ((capture_clears_figures_unless_error st0).2.2 reqNop st0 "" ""
      (injectScratch st0) rfl).1⟩

/-- C8 counterexample: a directory whose second regular file fails
`stat()` makes the listing hit its `except` path, yet the returned list
holds the first file's entry - the accumulated partial list, not the
empty list the claim states. -/
theorem listing_error_returns_partial_list :
    listErr fsC8 = true ∧ ¬ (get_scratch_files fsC8 = []) := by
  decide

/-- C8 amended: when an error occurs during the listing it is swallowed
(and logged) and the operation returns the `FileInfo` entries
accumulated before the failure point - the regular files of the longest
prefix of the directory preceding the first failing regular file -
which is empty only when the failure precedes every listed entry; the
response as a whole never fails. -/
theorem listing_error_yields_accumulated_prefix (fs : List FileEntry)
    (h : listErr fs = true) :
    get_scratch_files fs =
      ((fs.takeWhile (fun e => !(e.isFile && e.statFails))).filter
        (fun e => e.isFile)).map mkFileInfo := by
  clear h
  induction fs with
  | nil => rfl
  | cons e rest ih =>
      by_cases hf : e.isFile
      · by_cases hs : e.statFails
        · simp [get_scratch_files, listGo, hf, hs]
        · simpa [get_scratch_files, listGo, hf, hs] using ih
      · simpa [get_scratch_files, listGo, hf] using ih

/-- Witness for C8 amended: on the concrete failing directory the
result is exactly the listing of the prefix before the failing file. -/
theorem listing_error_yields_accumulated_prefix_witness :
    get_scratch_files fsC8 =
      ((fsC8.takeWhile (fun e => !(e.isFile && e.statFails))).filter
        (fun e => e.isFile)).map mkFileInfo :=
  listing_error_yields_accumulated_prefix fsC8 (by decide)

/-- Helper: lowercasing a string yields the empty string exactly when
the string was empty. -/
theorem pyLower_empty_iff (s : String) : pyLower s = "" ↔ s = "" := by
  cases s with
  | mk d => cases d <;> simp [pyLower, String.ext_iff]

/-- Helper: the `type` field computation is the lowercased suffix when
the name has a suffix, and `unknown` when it has none. -/
theorem pyType_characterization (nm : String) :
    pyType nm = if pySuffix nm = "" then "unknown" else pyLower (pySuffix nm) := by
  unfold pyType
  by_cases h : pySuffix nm = ""
  · rw [h]
    rfl
  · have hne : ¬ (pyLower (pySuffix nm) = "") := fun hc => h ((pyLower_empty_iff _).mp hc)
    simp [h, hne]

/-- Helper: every field of the `FileInfo` built for one directory
entry, including that its path is absolute. -/
theorem mkFileInfo_fields (e : FileEntry) :
    (mkFileInfo e).name = e.name ∧
    (mkFileInfo e).type =
      (if pySuffix e.name = "" then "unknown" else pyLower (pySuffix e.name)) ∧
    (mkFileInfo e).size = e.size ∧
    (mkFileInfo e).path = "/scratch/" ++ e.name ∧
    (∃ r, (mkFileInfo e).path = "/" ++ r) := by
  refine ⟨rfl, pyType_characterization e.name, rfl, rfl,
    ⟨"scratch/" ++ e.name, ?_⟩⟩
  show "/scratch/" ++ e.name = "/" ++ ("scratch/" ++ e.name)
  have h : ("/" : String) ++ "scratch/" = "/scratch/" := rfl
  rw [← String.append_assoc, h]

/-- Helper: everything the listing returns comes from a regular-file
entry of the directory. -/
theorem mem_get_scratch_files (fs : List FileEntry) (info : FileInfo)
    (h : info ∈ get_scratch_files fs) :
    ∃ e, e ∈ fs ∧ e.isFile = true ∧ info = mkFileInfo e := by
  induction fs with
  | nil => simp [get_scratch_files, listGo] at h
  | cons e rest ih =>
      cases hf : e.isFile with
      | false =>
          rw [get_scratch_files, listGo, hf] at h
          obtain ⟨e2, he2, hfi, heq⟩ := ih h
          exact ⟨e2, List.mem_cons_of_mem _ he2, hfi, heq⟩
      | true =>
          cases hs : e.statFails with
          | true => simp [get_scratch_files, listGo, hf, hs] at h
          | false =>
              rw [get_scratch_files, listGo, hf, hs] at h
              simp only [Bool.false_eq_true, if_false, if_true] at h
              rcases List.mem_cons.mp h with h1 | h2
              · exact ⟨e, List.mem_cons_self e rest, hf, h1⟩
              · obtain ⟨e2, he2, hfi, heq⟩ := ih h2
                exact ⟨e2, List.mem_cons_of_mem _ he2, hfi, heq⟩

/-- Helper: when no error interrupts the listing, the result is exactly
the regular files of the directory, in order. -/
theorem get_scratch_files_no_error (fs : List FileEntry) (h : listErr fs = false) :
    get_scratch_files fs = (fs.filter (fun e => e.isFile)).map mkFileInfo := by
  induction fs with
  | nil => rfl
  | cons e rest ih =>
      cases hf : e.isFile with
      | false =>
          have h2 : listErr rest = false := by
            rw [listErr, listGo, hf] at h
            exact h
          simpa [get_scratch_files, listGo, hf] using ih h2
      | true =>
          cases hs : e.statFails with
          | true =>
              exfalso
              rw [listErr, listGo, hf, hs] at h
              simp at h
          | false =>
              have h2 : listErr rest = false := by
                rw [listErr, listGo, hf, hs] at h
                simpa using h
              simpa [get_scratch_files, listGo, hf, hs] using ih h2

/-- C9: every `FileInfo` the listing produces comes from a regular file
directly inside the scratch directory and carries that file's name, its
size in bytes, a `type` equal to the lowercased file suffix (`unknown`
when absent), and an absolute path; when no listing error occurs the
listing is exactly the directory's regular files in order; and both the
status and files endpoints recompute it from the directory contents at
call time. -/
theorem scratch_file_info_fields (fs : List FileEntry) :
    (∀ info ∈ get_scratch_files fs, ∃ e, e ∈ fs ∧ e.isFile = true ∧
        info.name = e.name ∧
        info.type =
          (if pySuffix e.name = "" then "unknown" else pyLower (pySuffix e.name)) ∧
        info.size = e.size ∧
        info.path = "/scratch/" ++ e.name ∧
        (∃ r, info.path = "/" ++ r)) ∧
    (listErr fs = false →
      get_scratch_files fs = (fs.filter (fun e => e.isFile)).map mkFileInfo) ∧
    (∀ st : ExecState, st.fs = fs →
      (get_status st).files = get_scratch_files fs ∧
      (list_files st).files = get_scratch_files fs) := by
  refine ⟨?_, get_scratch_files_no_error fs, ?_⟩
  · intro info hmem
    obtain ⟨e, he, hfi, heq⟩ := mem_get_scratch_files fs info hmem
    subst heq
    obtain ⟨f1, f2, f3, f4, f5⟩ := mkFileInfo_fields e
    exact ⟨e, he, hfi, f1, f2, f3, f4, f5⟩
  · intro st hst
    rw [← hst]
    exact ⟨rfl, rfl⟩

/-- A concrete scratch directory for the C9 witness: an uppercase
suffix, a subdirectory and an extensionless file. -/
def fsW : List FileEntry :=
  [{ name := "plot.PNG", size := 7, isFile := true, statFails := false },
   { name := "subdir", size := 0, isFile := false, statFails := false },
   { name := "noext", size := 3, isFile := true, statFails := false }]

/-- The first `FileInfo` the listing of `fsW` produces. -/
def infoW : FileInfo :=
  mkFileInfo { name := "plot.PNG", size := 7, isFile := true, statFails := false }

/-- A process state holding `fsW` for the C9 witness. -/
def stW : ExecState := { ns := [], figures := [], fs := fsW, clock := 0 }

/-- Witness for C9 on a concrete directory: the produced entry has the
claimed fields (with the uppercase suffix lowered to `.png`), the
error-free listing is exactly the regular files, and the endpoints
reproduce it. -/
theorem scratch_file_info_fields_witness :
    (∃ e, e ∈ fsW ∧ e.isFile = true ∧ infoW.name = e.name ∧
      infoW.type =
        (if pySuffix e.name = "" then "unknown" else pyLower (pySuffix e.name)) ∧
      infoW.size = e.size ∧ infoW.path = "/scratch/" ++ e.name ∧
      (∃ r, infoW.path = "/" ++ r)) ∧
    (get_scratch_files fsW = (fsW.filter (fun e => e.isFile)).map mkFileInfo) ∧
    ((get_status stW).files = get_scratch_files fsW ∧
      (list_files stW).files = get_scratch_files fsW) ∧
    infoW.type = ".png" ∧
    (mkFileInfo { name := "noext", size := 3, isFile := true, statFails := false }).type
      = "unknown" :=
  ⟨(scratch_file_info_fields fsW).1 infoW (by decide),
   (scratch_file_info_fields fsW).2.1 (by decide),
   (scratch_file_info_fields fsW).2.2 stW rfl,
   by decide, by decide⟩

/-- C6 (code bug): the preamble never imports `time` into the session
namespace, so in a fresh session the helper call `save_plot()` with no
filename - whose default filename interpolates `time.time()` - raises
a `NameError` instead of writing the figure and returning its path;
with an explicit filename the helper does write the file under the
scratch directory and returns that path. -/
theorem save_plot_noargs_fails_in_fresh_session :
    nsLookup preambleBindings "time" = none ∧
    save_plot preambleBindings none "png" 0 [] =
      Except.error "NameError: name time is not defined" ∧
    save_plot preambleBindings (some "fig.png") "png" 0 [] =
      Except.ok ("/scratch/fig.png",
        [{ name := "fig.png", size := figPngSize, isFile := true,
           statFails := false }]) :=
  ⟨by decide, rfl, rfl⟩
